import Mathlib

/-!
Verification of the intent-classification / vector-search / multi-tier caching core of a
coffee-shop chat assistant.  The Python services (`app/services/embedding.py`,
`app/services/cache.py`, `app/services/intent.py`, `app/services/exemplar.py`,
`app/services/product.py`) are shallowly embedded: database tables become lists of rows,
timestamps become `Nat`, SQL floats become `ℚ`, the external embedding provider and the
pgvector distance operator become function parameters, and the fallible cache statements
are modelled by explicit failure flags with `Except`-valued operations.
-/

namespace App

/-- A row of the `embedding_cache` table (see `app.schemas.cache.EmbeddingCache`):
`id`, `text_hash`, `embedding`, `model`, `hit_count` (default 0), `last_accessed`,
`created_at`.  Timestamps are modelled as `Nat`. -/
structure EmbeddingCacheRow where
  id : Nat
  text_hash : String
  embedding : List ℚ
  model : String
  hit_count : Nat
  last_accessed : Option Nat
  created_at : Nat
deriving DecidableEq

/-- Ambient collaborators of `EmbeddingService` (`app/services/embedding.py`):
`modelName` is `settings.vertex_ai.EMBEDDING_MODEL`; `hashText` models
`hashlib.sha256(...).hexdigest()` from `CacheService._hash_text`; `gen` models the
external Vertex AI provider (`VertexAIService.get_text_embedding`), a pure function
since identical text always yields the identical vector; `now` is the database clock
`CURRENT_TIMESTAMP`; `dbReadFails` / `dbWriteFails` say whether the persistent-cache
SELECT / INSERT statements raise. -/
structure EmbEnv where
  modelName : String
  hashText : String → String
  gen : String → List ℚ
  now : Nat
  dbReadFails : Bool
  dbWriteFails : Bool

/-- The mutable state touched by `EmbeddingService`: the in-process memory tier
(`self._memory_cache`, keys are `f"{text}:{model_name}"`) and the persistent
`embedding_cache` table. -/
structure EmbState where
  memCache : List (String × List ℚ)
  db : List EmbeddingCacheRow
deriving DecidableEq

/-- Lookup in the in-process memory cache (`cache_key in self._memory_cache`); writes
prepend, so the first match is the most recent write, matching dict-update semantics. -/
def lookupMem : List (String × List ℚ) → String → Option (List ℚ)
  | [], _ => none
  | e :: mem, k => if e.1 == k then some e.2 else lookupMem mem k

/-- `CacheService.get_cached_embedding`: SELECT one row of `embedding_cache`
WHERE `text_hash = sha256(text)` AND `model = model_name`. -/
def get_cached_embedding (env : EmbEnv) (db : List EmbeddingCacheRow)
    (text model_name : String) : Option EmbeddingCacheRow :=
  db.find? (fun r => r.text_hash == env.hashText text && r.model == model_name)

/-- `CacheService.set_cached_embedding`: INSERT INTO `embedding_cache`
`(text_hash, embedding, model)` ON CONFLICT `(text_hash)` DO UPDATE SET
`embedding = EXCLUDED.embedding, model = EXCLUDED.model, created_at = CURRENT_TIMESTAMP`.
Note the conflict target is `text_hash` alone, so the matching row is updated in place
regardless of its current `model`.  A fresh INSERT takes the column defaults
`hit_count = 0`, `last_accessed = NULL`; the serial `id` is modelled as `length + 1`. -/
def set_cached_embedding (env : EmbEnv) (db : List EmbeddingCacheRow)
    (text : String) (embedding : List ℚ) (model_name : String) : List EmbeddingCacheRow :=
  let text_hash := env.hashText text
  if db.any (fun r => r.text_hash == text_hash) then
    db.map (fun r =>
      if r.text_hash == text_hash then
        { r with embedding := embedding, model := model_name, created_at := env.now }
      else r)
  else
    db ++ [{ id := db.length + 1, text_hash := text_hash, embedding := embedding,
             model := model_name, hit_count := 0, last_accessed := none,
             created_at := env.now }]

/-- `CacheService.increment_embedding_hit`: UPDATE `embedding_cache` SET
`hit_count = hit_count + 1, last_accessed = CURRENT_TIMESTAMP` WHERE
`text_hash = :text_hash AND model = :model_name`.  (Defined by the repository but
never invoked by `EmbeddingService.get_text_embedding`.) -/
def increment_embedding_hit (env : EmbEnv) (db : List EmbeddingCacheRow)
    (text_hash model_name : String) : List EmbeddingCacheRow :=
  db.map (fun r =>
    if r.text_hash == text_hash && r.model == model_name then
      { r with hit_count := r.hit_count + 1, last_accessed := some env.now }
    else r)

/-- `EmbeddingService.get_text_embedding`: memory tier first, then the persistent
cache (this read is not wrapped in a try/except, so its failure propagates), then the
provider; the write-back of a newly generated vector is wrapped in try/except, the
memory write preceding the fallible database write.  On a persistent-cache hit the
source reads `cached.embedding_data` (embedding.py lines 69 and 75), an attribute
that does not exist — the `EmbeddingCache` struct (schemas/cache.py) defines
`embedding` — so that path raises an unhandled `AttributeError` before touching the
memory tier; it is modelled as an error with the caches unchanged. -/
def get_text_embedding (env : EmbEnv) (st : EmbState) (text : String)
    (use_cache : Bool) : Except String (List ℚ × EmbState) :=
  let model_name := env.modelName
  if use_cache then
    let cache_key := text ++ ":" ++ model_name
    match lookupMem st.memCache cache_key with
    | some v => .ok (v, st)
    | none =>
      if env.dbReadFails then .error "embedding cache read failed"
      else
        match get_cached_embedding env st.db text model_name with
        | some _ => .error "AttributeError: embedding_data"
        | none =>
            let embedding := env.gen text
            let memCache1 := (cache_key, embedding) :: st.memCache
            let db1 := if env.dbWriteFails then st.db
                       else set_cached_embedding env st.db text embedding model_name
            .ok (embedding, { memCache := memCache1, db := db1 })
  else
    .ok (env.gen text, st)

/-- The cache-check loop of `EmbeddingService.get_batch_embeddings` (`use_cache` path):
for each text, memory tier first, then the persistent cache, else record a `[]`
placeholder, the text and its index for generation.  `i` is the running `enumerate`
index; the persistent-cache read is not wrapped in a try/except, so its failure
propagates.  On a persistent-cache hit the source reads `cached.embedding_data`
(embedding.py lines 142 and 143), an attribute that does not exist on the
`EmbeddingCache` struct (whose field is `embedding`), so the loop raises an unhandled
`AttributeError` there — modelled as an error aborting the scan. -/
def batch_scan (env : EmbEnv) (db : List EmbeddingCacheRow) :
    List String → Nat → List (String × List ℚ) →
    Except String (List (List ℚ) × List String × List Nat × List (String × List ℚ))
  | [], _, mem => .ok ([], [], [], mem)
  | t :: ts, i, mem =>
    let cache_key := t ++ ":" ++ env.modelName
    match lookupMem mem cache_key with
    | some v =>
        match batch_scan env db ts (i + 1) mem with
        | .error e => .error e
        | .ok (es, g, ix, mem') => .ok (v :: es, g, ix, mem')
    | none =>
        if env.dbReadFails then .error "embedding cache read failed"
        else
          match get_cached_embedding env db t env.modelName with
          | some _ => .error "AttributeError: embedding_data"
          | none =>
              match batch_scan env db ts (i + 1) mem with
              | .error e => .error e
              | .ok (es, g, ix, mem') => .ok (([] : List ℚ) :: es, t :: g, i :: ix, mem')

/-- The fill-and-cache loop of `EmbeddingService.get_batch_embeddings`: for each
`(text_idx, text, embedding)` of `zip(text_indices, texts_to_generate, new_embeddings)`,
place the generated vector at its original position and write both cache tiers (the
fallible database write is wrapped in try/except and swallowed, the position fill and
memory write having already happened). -/
def cache_new_embeddings (env : EmbEnv) :
    List (Nat × String × List ℚ) → List (List ℚ) → List (String × List ℚ) →
    List EmbeddingCacheRow → List (List ℚ) × List (String × List ℚ) × List EmbeddingCacheRow
  | [], es, mem, db => (es, mem, db)
  | (i, t, e) :: rest, es, mem, db =>
      let es' := es.set i e
      let mem' := (t ++ ":" ++ env.modelName, e) :: mem
      let db' := if env.dbWriteFails then db
                 else set_cached_embedding env db t e env.modelName
      cache_new_embeddings env rest es' mem' db'

/-- `EmbeddingService.get_batch_embeddings`: empty input short-circuits; with caching,
partition into cached and to-generate (keeping `[]` placeholders), generate only the
uncached texts through the provider, then fill positions and write-through each new
vector; without caching, every text goes to the provider. -/
def get_batch_embeddings (env : EmbEnv) (st : EmbState) (texts : List String)
    (use_cache : Bool) : Except String (List (List ℚ) × EmbState) :=
  if texts.isEmpty then .ok ([], st)
  else if use_cache then
    match batch_scan env st.db texts 0 st.memCache with
    | .error e => .error e
    | .ok (es, texts_to_generate, text_indices, mem1) =>
        let new_embeddings := texts_to_generate.map env.gen
        let filled := cache_new_embeddings env
          (text_indices.zip (texts_to_generate.zip new_embeddings)) es mem1 st.db
        .ok (filled.1, { memCache := filled.2.1, db := filled.2.2 })
  else
    .ok (texts.map env.gen, st)

/-! ## Intent classification (`app/services/intent.py`, `app/services/exemplar.py`) -/

/-- A row of the `intent_exemplar` table (see `app.schemas.intent.IntentExemplar`);
the `created_at` / `updated_at` timestamps are not read by any operation modelled here
and are omitted. -/
structure IntentExemplarRow where
  id : Nat
  intent : String
  phrase : String
  embedding : List ℚ
  confidence_threshold : ℚ
  usage_count : Nat
deriving DecidableEq

/-- `app.schemas.intent.IntentSearchResult`: one row of
`ExemplarService.search_similar_intents`. -/
structure IntentSearchResult where
  intent : String
  phrase : String
  similarity : ℚ
  confidence_threshold : ℚ
  usage_count : Nat
deriving DecidableEq

/-- `app.schemas.intent.IntentResult`: the transient classification outcome. -/
structure IntentResult where
  intent : String
  confidence : ℚ
  exemplar_phrase : String
  embedding_cache_hit : Bool
  fallback_used : Bool
deriving DecidableEq

/-- `ExemplarService.search_similar_intents`: over all exemplars compute
`similarity = 1 - (embedding <=> :query_embedding)` (the pgvector cosine-distance
operator is the parameter `dist`), keep rows with `similarity > :min_threshold`
(strict, and additionally `intent = :target_intent` when a non-empty target intent is
given), ORDER BY `similarity DESC`, LIMIT `:limit`.  Source defaults:
`min_threshold = 0.6`, `limit = 10`, `target_intent = None`. -/
def search_similar_intents (dist : List ℚ → List ℚ → ℚ)
    (exemplars : List IntentExemplarRow) (query_embedding : List ℚ)
    (min_threshold : ℚ) (limit : Nat) (target_intent : Option String) :
    List IntentSearchResult :=
  let rows : List IntentSearchResult := exemplars.map (fun ex =>
    { intent := ex.intent, phrase := ex.phrase,
      similarity := 1 - dist ex.embedding query_embedding,
      confidence_threshold := ex.confidence_threshold,
      usage_count := ex.usage_count })
  let filtered : List IntentSearchResult :=
    match target_intent with
    | some ti =>
        if ti = "" then rows.filter (fun r => decide (min_threshold < r.similarity))
        else rows.filter (fun r => r.intent == ti && decide (min_threshold < r.similarity))
    | none => rows.filter (fun r => decide (min_threshold < r.similarity))
  (filtered.insertionSort (fun a b => b.similarity ≤ a.similarity)).take limit

/-- `ExemplarService.increment_usage_by_phrase`: UPDATE `intent_exemplar` SET
`usage_count = usage_count + 1` WHERE `intent = :intent AND phrase = :phrase`. -/
def increment_usage_by_phrase (exemplars : List IntentExemplarRow)
    (intent phrase : String) : List IntentExemplarRow :=
  exemplars.map (fun ex =>
    if ex.intent == intent && ex.phrase == phrase then
      { ex with usage_count := ex.usage_count + 1 }
    else ex)

/-- The embedding step of `IntentService.classify_intent`: when no pre-computed
embedding is supplied the query is embedded through the two-tier cache and
`embedding_cache_hit` stays `False`; a supplied embedding sets it to `True`. -/
def classify_embed_step (env : EmbEnv) (st : EmbState) (query : String)
    (user_embedding : Option (List ℚ)) : Except String (Bool × List ℚ × EmbState) :=
  match user_embedding with
  | none => (get_text_embedding env st query true).map (fun p => (false, p.1, p.2))
  | some e => .ok (true, e, st)

/-- `IntentService.classify_intent`: embed the query, search similar exemplars, and
either fall back (no candidates), accept the best candidate when
`similarity >= confidence_threshold` (incrementing its usage count), or fall back
reporting the best similarity.  Source defaults: `min_threshold = 0.6`,
`max_results = 5`.  Returns the result together with the updated embedding state and
exemplar table. -/
def classify_intent (env : EmbEnv) (dist : List ℚ → List ℚ → ℚ) (st : EmbState)
    (exemplars : List IntentExemplarRow) (query : String)
    (user_embedding : Option (List ℚ)) (min_threshold : ℚ) (max_results : Nat) :
    Except String (IntentResult × EmbState × List IntentExemplarRow) :=
  match classify_embed_step env st query user_embedding with
  | .error e => .error e
  | .ok (embedding_cache_hit, qe, st') =>
    let similar_intents :=
      search_similar_intents dist exemplars qe min_threshold max_results none
    match similar_intents with
    | [] =>
        .ok ({ intent := "GENERAL_CONVERSATION", confidence := 0, exemplar_phrase := "",
               embedding_cache_hit := embedding_cache_hit, fallback_used := true },
             st', exemplars)
    | best_match :: _ =>
        if best_match.confidence_threshold ≤ best_match.similarity then
          .ok ({ intent := best_match.intent, confidence := best_match.similarity,
                 exemplar_phrase := best_match.phrase,
                 embedding_cache_hit := embedding_cache_hit, fallback_used := false },
               st', increment_usage_by_phrase exemplars best_match.intent best_match.phrase)
        else
          .ok ({ intent := "GENERAL_CONVERSATION", confidence := best_match.similarity,
                 exemplar_phrase := best_match.phrase,
                 embedding_cache_hit := embedding_cache_hit, fallback_used := true },
               st', exemplars)

/-! ## Product vector search with result caching (`app/services/product.py`) -/

/-- A row of the `product` table; `embedding` may be SQL NULL.  The
presentation-only columns `description`, `metadata`, `created_at`, `updated_at`
are omitted (no modelled operation reads them). -/
structure ProductRow where
  id : Nat
  name : String
  price : ℚ
  category : String
  sku : String
  in_stock : Bool
  embedding : Option (List ℚ)
deriving DecidableEq

/-- `app.schemas.product.ProductSearchResult`: a product together with
`similarity_score = 1 - (embedding <=> :query_embedding)`; the score is `none` when the
product row has a NULL embedding (possible on the cached-id re-fetch path, whose SQL has
no `embedding IS NOT NULL` filter). -/
structure ProductSearchResult where
  id : Nat
  name : String
  price : ℚ
  category : String
  sku : String
  in_stock : Bool
  similarity_score : Option ℚ
deriving DecidableEq

/-- Project a product row to a search-result row for a given query embedding. -/
def to_search_result (dist : List ℚ → List ℚ → ℚ) (query_embedding : List ℚ)
    (p : ProductRow) : ProductSearchResult :=
  { id := p.id, name := p.name, price := p.price, category := p.category,
    sku := p.sku, in_stock := p.in_stock,
    similarity_score := p.embedding.map (fun e => 1 - dist e query_embedding) }

/-- The ORDER BY key `embedding <=> :query_embedding` of a product row (only applied to
rows that passed the `embedding IS NOT NULL` filter; `0` is a dummy for NULL). -/
def product_distance (dist : List ℚ → List ℚ → ℚ) (query_embedding : List ℚ)
    (p : ProductRow) : ℚ :=
  match p.embedding with
  | some e => dist e query_embedding
  | none => 0

/-- `ProductService.vector_similarity_search`: WHERE `embedding IS NOT NULL AND
in_stock = true AND 1 - (embedding <=> :q) >= :similarity_threshold`, ORDER BY
`embedding <=> :q` (ascending), LIMIT `:limit_count`.  Source defaults:
`similarity_threshold = 0.7`, `limit = 5`. -/
def vector_similarity_search (dist : List ℚ → List ℚ → ℚ)
    (products : List ProductRow) (query_embedding : List ℚ)
    (similarity_threshold : ℚ) (limit : Nat) : List ProductSearchResult :=
  let matching := products.filter (fun p =>
    match p.embedding with
    | some e => p.in_stock && decide (similarity_threshold ≤ 1 - dist e query_embedding)
    | none => false)
  let ordered := matching.insertionSort (fun a b =>
    product_distance dist query_embedding a ≤ product_distance dist query_embedding b)
  (ordered.take limit).map (to_search_result dist query_embedding)

/-- A row of the `vector_search_cache` table
(see `app.schemas.cache.VectorSearchCache`). -/
structure VectorSearchCacheRow where
  id : Nat
  embedding_hash : String
  similarity_threshold : ℚ
  result_limit : Nat
  product_ids : List Nat
  results_count : Nat
  expires_at : Nat
  last_accessed : Option Nat
  hit_count : Nat
deriving DecidableEq

/-- Ambient collaborators of `ProductService`: the pgvector distance operator `dist`,
the cache-key digest `hashKey` (models `sha256(json.dumps(...))[:16]` over the
embedding sample, threshold and limit), and the database clock `now`. -/
structure ProductEnv where
  dist : List ℚ → List ℚ → ℚ
  hashKey : List ℚ → ℚ → Nat → String
  now : Nat

/-- The state touched by the cached product search: the `product` table and the
`vector_search_cache` table. -/
structure ProductState where
  products : List ProductRow
  cache : List VectorSearchCacheRow
deriving DecidableEq

/-- `ProductService._generate_vector_cache_key`: digest of the first 10 embedding
dimensions together with threshold and limit. -/
def generate_vector_cache_key (env : ProductEnv) (embedding : List ℚ)
    (threshold : ℚ) (limit : Nat) : String :=
  env.hashKey (embedding.take 10) threshold limit

/-- `ProductService._get_cached_vector_search`: SELECT one row of
`vector_search_cache` WHERE `embedding_hash = :cache_key AND
expires_at > CURRENT_TIMESTAMP`. -/
def get_cached_vector_search (env : ProductEnv) (cache : List VectorSearchCacheRow)
    (cache_key : String) : Option VectorSearchCacheRow :=
  cache.find? (fun r => r.embedding_hash == cache_key && decide (env.now < r.expires_at))

/-- `ProductService._fetch_products_by_ids`: SELECT products WHERE
`id = ANY(:product_ids)` ORDER BY `array_position(:product_ids, id)`, recomputing
`1 - (embedding <=> :query_embedding)` as the similarity score.  `List.indexOf`
matches `array_position` ordering (absent ids compare last, but every selected row's
id occurs in the list). -/
def fetch_products_by_ids (dist : List ℚ → List ℚ → ℚ) (products : List ProductRow)
    (product_ids : List Nat) (query_embedding : List ℚ) : List ProductSearchResult :=
  let matching := products.filter (fun p => decide (p.id ∈ product_ids))
  let ordered := matching.insertionSort (fun a b =>
    product_ids.indexOf a.id ≤ product_ids.indexOf b.id)
  ordered.map (to_search_result dist query_embedding)

/-- `ProductService._cache_vector_search_results`: INSERT INTO `vector_search_cache`
with `expires_at = CURRENT_TIMESTAMP + INTERVAL '1 minute'` (here `now + 60`),
ON CONFLICT `(embedding_hash, similarity_threshold, result_limit)` DO UPDATE SET
`product_ids, results_count, expires_at, last_accessed = CURRENT_TIMESTAMP,
hit_count = hit_count + 1`.  A fresh INSERT takes the column defaults
`hit_count = 1`, `last_accessed = NULL`; the serial `id` is modelled as `length + 1`. -/
def cache_vector_search_results (env : ProductEnv) (cache : List VectorSearchCacheRow)
    (cache_key : String) (results : List ProductSearchResult)
    (threshold : ℚ) (limit : Nat) : List VectorSearchCacheRow :=
  let product_ids := results.map (fun r => r.id)
  if cache.any (fun r => r.embedding_hash == cache_key &&
      r.similarity_threshold == threshold && r.result_limit == limit) then
    cache.map (fun r =>
      if r.embedding_hash == cache_key && r.similarity_threshold == threshold &&
          r.result_limit == limit then
        { r with product_ids := product_ids, results_count := product_ids.length,
                 expires_at := env.now + 60, last_accessed := some env.now,
                 hit_count := r.hit_count + 1 }
      else r)
  else
    cache ++ [{ id := cache.length + 1, embedding_hash := cache_key,
                similarity_threshold := threshold, result_limit := limit,
                product_ids := product_ids, results_count := product_ids.length,
                expires_at := env.now + 60, last_accessed := none, hit_count := 1 }]

/-- `ProductService._update_cache_hit`: UPDATE `vector_search_cache` SET
`hit_count = hit_count + 1, last_accessed = CURRENT_TIMESTAMP` WHERE `id = :cache_id`. -/
def update_cache_hit (env : ProductEnv) (cache : List VectorSearchCacheRow)
    (cache_id : Nat) : List VectorSearchCacheRow :=
  cache.map (fun r =>
    if r.id == cache_id then
      { r with hit_count := r.hit_count + 1, last_accessed := some env.now }
    else r)

/-- `ProductService.vector_similarity_search_with_cache`: on an unexpired cache hit,
re-fetch the cached id list (recording the hit) and return `cache_hit = true`;
on a miss run the real search, cache the results only when non-empty (`if results:`),
and return `cache_hit = false`. -/
def vector_similarity_search_with_cache (env : ProductEnv) (st : ProductState)
    (query_embedding : List ℚ) (similarity_threshold : ℚ) (limit : Nat) :
    (List ProductSearchResult × Bool) × ProductState :=
  let cache_key := generate_vector_cache_key env query_embedding similarity_threshold limit
  match get_cached_vector_search env st.cache cache_key with
  | some cached =>
      let results := fetch_products_by_ids env.dist st.products cached.product_ids query_embedding
      ((results, true), { st with cache := update_cache_hit env st.cache cached.id })
  | none =>
      let results :=
        vector_similarity_search env.dist st.products query_embedding similarity_threshold limit
      let cache' :=
        if results.isEmpty then st.cache
        else cache_vector_search_results env st.cache cache_key results similarity_threshold limit
      ((results, false), { st with cache := cache' })

/-- The similarity-descending ordering used by `search_similar_intents` is total. -/
instance : IsTotal IntentSearchResult (fun a b => b.similarity ≤ a.similarity) :=
  ⟨fun a b => le_total b.similarity a.similarity⟩

/-- The similarity-descending ordering used by `search_similar_intents` is transitive. -/
instance : IsTrans IntentSearchResult (fun a b => b.similarity ≤ a.similarity) :=
  ⟨fun _ _ _ hab hbc => le_trans hbc hab⟩

/-! ## Helper lemmas -/

theorem get_text_embedding_mem_hit (env : EmbEnv) (st : EmbState) (text : String)
    (v : List ℚ) (h : lookupMem st.memCache (text ++ ":" ++ env.modelName) = some v) :
    get_text_embedding env st text true = .ok (v, st) := by
  simp [get_text_embedding, h]

theorem get_text_embedding_db_hit_raises (env : EmbEnv) (st : EmbState) (text : String)
    (cached : EmbeddingCacheRow)
    (hm : lookupMem st.memCache (text ++ ":" ++ env.modelName) = none)
    (hr : env.dbReadFails = false)
    (hd : get_cached_embedding env st.db text env.modelName = some cached) :
    get_text_embedding env st text true = .error "AttributeError: embedding_data" := by
  simp [get_text_embedding, hm, hr, hd]

theorem get_text_embedding_full_miss (env : EmbEnv) (st : EmbState) (text : String)
    (hm : lookupMem st.memCache (text ++ ":" ++ env.modelName) = none)
    (hr : env.dbReadFails = false)
    (hd : get_cached_embedding env st.db text env.modelName = none) :
    get_text_embedding env st text true
      = .ok (env.gen text,
             ⟨(text ++ ":" ++ env.modelName, env.gen text) :: st.memCache,
              if env.dbWriteFails then st.db
              else set_cached_embedding env st.db text (env.gen text) env.modelName⟩) := by
  simp [get_text_embedding, hm, hr, hd]





/-! ## Claim theorems -/

/-- Claim C4 (code bug): `set_cached_embedding` upserts ON CONFLICT `(text_hash)` alone
and sets `model = EXCLUDED.model`, so writing an embedding for the same text under a
different model name overwrites the existing entry in place instead of storing a second
entry keyed by `(text_hash, model)`: after caching `"t"` under model `"A"` and then
under model `"B"`, a single row remains, carrying model `"B"`, and the lookup for
`("t", "A")` — which does filter by model — comes back empty. -/
theorem C4_set_cached_embedding_overwrites_across_models :
    set_cached_embedding (⟨"m", id, fun _ => [1], 0, false, false⟩ : EmbEnv)
        (set_cached_embedding (⟨"m", id, fun _ => [1], 0, false, false⟩ : EmbEnv)
          [] "t" [1] "A") "t" [2] "B"
      = [⟨1, "t", [2], "B", 0, none, 0⟩] ∧
    get_cached_embedding (⟨"m", id, fun _ => [1], 0, false, false⟩ : EmbEnv)
        (set_cached_embedding (⟨"m", id, fun _ => [1], 0, false, false⟩ : EmbEnv)
          (set_cached_embedding (⟨"m", id, fun _ => [1], 0, false, false⟩ : EmbEnv)
            [] "t" [1] "A") "t" [2] "B") "t" "A"
      = none := by
  decide

/-- Claim C7 (amended): the best-effort handling in `get_text_embedding` covers only
the cache write: when both cache tiers miss and the persistent-cache write fails, the
failure is swallowed — the freshly generated vector is still returned, the memory tier
is still populated, and the persistent store is left untouched. -/
theorem C7_write_failure_swallowed (env : EmbEnv) (st : EmbState) (t : String)
    (hr : env.dbReadFails = false) (hw : env.dbWriteFails = true)
    (hm : lookupMem st.memCache (t ++ ":" ++ env.modelName) = none)
    (hd : get_cached_embedding env st.db t env.modelName = none) :
    get_text_embedding env st t true
      = .ok (env.gen t,
             ⟨(t ++ ":" ++ env.modelName, env.gen t) :: st.memCache, st.db⟩) := by
  rw [get_text_embedding_full_miss env st t hm hr hd]
  simp [hw]

/-- Witness for C7: a concrete full-miss call with a failing persistent write still
returns the generated vector and leaves the persistent cache empty. -/
theorem C7_witness :
    get_text_embedding (⟨"m", id, fun _ => [1], 0, false, true⟩ : EmbEnv) ⟨[], []⟩ "t" true
      = .ok ([1], ⟨[("t:m", [1])], []⟩) := by
  exact C7_write_failure_swallowed _ _ _ rfl rfl rfl rfl

/-- Counterexample for C7 as stated: a persistent-cache READ failure is not treated as
a miss — `get_text_embedding` does not regenerate via the provider and surfaces the
error to its caller (the read, unlike the write, is outside the try/except). -/
theorem C7_counterexample_read_failure_surfaces :
    get_text_embedding (⟨"m", id, fun _ => [1], 0, true, false⟩ : EmbEnv)
        ⟨[], []⟩ "t" true = .error "embedding cache read failed" := by
  rfl

/-- Claim C2 (code bug): `get_text_embedding` evaluated through the failing scenario.
A first embed of the previously unseen `"t"` succeeds and creates exactly one
persistent row; an immediate same-process repeat is served from the memory tier and
returns the identical vector with both caches unchanged; but a memory-cold call for
the persistently cached `"t"` — the path the claim describes as increasing
`hit_count` by 1 — raises instead of returning: the source reads
`cached.embedding_data`, an attribute the `EmbeddingCache` struct does not define.
(Even with the attribute fixed, `hit_count` could not increase: nothing ever calls
`increment_embedding_hit`.) -/
theorem C2_persistent_hit_raises :
    get_text_embedding (⟨"m", id, fun _ => [1], 5, false, false⟩ : EmbEnv)
        ⟨[], []⟩ "t" true
      = .ok ([1], ⟨[("t:m", [1])], [⟨1, "t", [1], "m", 0, none, 5⟩]⟩) ∧
    get_text_embedding (⟨"m", id, fun _ => [1], 5, false, false⟩ : EmbEnv)
        ⟨[("t:m", [1])], [⟨1, "t", [1], "m", 0, none, 5⟩]⟩ "t" true
      = .ok ([1], ⟨[("t:m", [1])], [⟨1, "t", [1], "m", 0, none, 5⟩]⟩) ∧
    get_text_embedding (⟨"m", id, fun _ => [1], 5, false, false⟩ : EmbEnv)
        ⟨[], [⟨1, "t", [1], "m", 0, none, 5⟩]⟩ "t" true
      = .error "AttributeError: embedding_data" :=
  ⟨rfl, rfl, rfl⟩

theorem classify_embed_step_none (env : EmbEnv) (st : EmbState) (q : String)
    (e : List ℚ) (st' : EmbState) (h : get_text_embedding env st q true = .ok (e, st')) :
    classify_embed_step env st q none = .ok (false, e, st') := by
  simp [classify_embed_step, h, Except.map]

theorem classify_embed_step_some (env : EmbEnv) (st : EmbState) (q : String)
    (e : List ℚ) : classify_embed_step env st q (some e) = .ok (true, e, st) := rfl

theorem classify_embed_step_none_err (env : EmbEnv) (st : EmbState) (q : String)
    (msg : String) (h : get_text_embedding env st q true = .error msg) :
    classify_embed_step env st q none = .error msg := by
  simp [classify_embed_step, h, Except.map]

theorem classify_intent_err (env : EmbEnv) (dist : List ℚ → List ℚ → ℚ) (st : EmbState)
    (exemplars : List IntentExemplarRow) (q : String) (ue : Option (List ℚ))
    (minT : ℚ) (maxR : Nat) (msg : String)
    (hstep : classify_embed_step env st q ue = .error msg) :
    classify_intent env dist st exemplars q ue minT maxR = .error msg := by
  unfold classify_intent
  rw [hstep]

theorem classify_intent_eq (env : EmbEnv) (dist : List ℚ → List ℚ → ℚ) (st : EmbState)
    (exemplars : List IntentExemplarRow) (q : String) (ue : Option (List ℚ))
    (minT : ℚ) (maxR : Nat) (ch : Bool) (qe : List ℚ) (st₁ : EmbState)
    (hstep : classify_embed_step env st q ue = .ok (ch, qe, st₁)) :
    classify_intent env dist st exemplars q ue minT maxR =
      match search_similar_intents dist exemplars qe minT maxR none with
      | [] => .ok (⟨"GENERAL_CONVERSATION", 0, "", ch, true⟩, st₁, exemplars)
      | best_match :: _ =>
          if best_match.confidence_threshold ≤ best_match.similarity then
            .ok (⟨best_match.intent, best_match.similarity, best_match.phrase, ch, false⟩,
                 st₁, increment_usage_by_phrase exemplars best_match.intent best_match.phrase)
          else
            .ok (⟨"GENERAL_CONVERSATION", best_match.similarity, best_match.phrase, ch, true⟩,
                 st₁, exemplars) := by
  unfold classify_intent
  rw [hstep]

theorem search_similar_intents_sorted (dist : List ℚ → List ℚ → ℚ)
    (exemplars : List IntentExemplarRow) (qe : List ℚ) (minT : ℚ) (maxR : Nat)
    (ti : Option String) :
    (search_similar_intents dist exemplars qe minT maxR ti).Sorted
      (fun a b => b.similarity ≤ a.similarity) := by
  unfold search_similar_intents
  apply List.Pairwise.sublist (List.take_sublist _ _)
  exact List.sorted_insertionSort _ _

theorem search_similar_intents_nil (dist : List ℚ → List ℚ → ℚ) (qe : List ℚ)
    (minT : ℚ) (maxR : Nat) (ti : Option String) :
    search_similar_intents dist [] qe minT maxR ti = [] := by
  unfold search_similar_intents
  cases ti with
  | none => simp
  | some s => by_cases h : s = "" <;> simp [h]

theorem classify_intent_flag (env : EmbEnv) (dist : List ℚ → List ℚ → ℚ) (st : EmbState)
    (exemplars : List IntentExemplarRow) (q : String) (ue : Option (List ℚ))
    (minT : ℚ) (maxR : Nat) (ch : Bool) (qe : List ℚ) (st₁ : EmbState)
    (hstep : classify_embed_step env st q ue = .ok (ch, qe, st₁)) :
    ∃ r st' ex', classify_intent env dist st exemplars q ue minT maxR = .ok (r, st', ex') ∧
      r.embedding_cache_hit = ch := by
  rw [classify_intent_eq env dist st exemplars q ue minT maxR ch qe st₁ hstep]
  cases hc : search_similar_intents dist exemplars qe minT maxR none with
  | nil => exact ⟨_, _, _, rfl, rfl⟩
  | cons best rest =>
      by_cases hth : best.confidence_threshold ≤ best.similarity
      · exact ⟨_, _, _, if_pos hth, rfl⟩
      · exact ⟨_, _, _, if_neg hth, rfl⟩

/-- Claim C3 (amended): the `embedding_cache_hit` flag of an `IntentResult` does not
report embedding-cache hits.  Every result `classify_intent` actually returns when it
embedded the query text itself (`user_embedding = None`) carries
`embedding_cache_hit = false` — first call and same-process repeat (served from the
memory tier) alike; the flag is `true` exactly when a pre-computed embedding is
passed in.  (A memory-cold persistently-cached text returns no result at all: the
embedding step raises `AttributeError` reading the nonexistent `embedding_data`
attribute.) -/
theorem C3_embedding_cache_hit_flag (env : EmbEnv) (dist : List ℚ → List ℚ → ℚ)
    (st : EmbState) (exemplars : List IntentExemplarRow) (q : String)
    (minT : ℚ) (maxR : Nat) :
    (∀ r st' ex', classify_intent env dist st exemplars q none minT maxR
        = .ok (r, st', ex') → r.embedding_cache_hit = false) ∧
    ∀ e : List ℚ, ∃ r st' ex', classify_intent env dist st exemplars q (some e) minT maxR
        = .ok (r, st', ex') ∧ r.embedding_cache_hit = true := by
  constructor
  · intro r st' ex' h
    cases hok : get_text_embedding env st q true with
    | error msg =>
        rw [classify_intent_err env dist st exemplars q none minT maxR msg
          (classify_embed_step_none_err env st q msg hok)] at h
        exact Except.noConfusion h
    | ok p =>
        obtain ⟨e, st₁⟩ := p
        obtain ⟨r₁, st₂, ex₂, heq, hflag⟩ := classify_intent_flag env dist st exemplars q
          none minT maxR false e st₁ (classify_embed_step_none env st q e st₁ hok)
        rw [heq] at h
        injection h with h2
        have hr : r₁ = r := congrArg (fun x => x.1) h2
        rw [← hr]
        exact hflag
  · intro e
    exact classify_intent_flag env dist st exemplars q (some e) minT maxR true e st
      (classify_embed_step_some env st q e)

/-- Witness for C3: the amended flag behaviour at a concrete query and state — the
embed-it-itself call returns with the flag `false`, the pre-embedded call with the
flag `true`. -/
theorem C3_witness :
    (∃ r st' ex', classify_intent (⟨"m", id, fun _ => [1], 0, false, false⟩ : EmbEnv)
        (fun _ _ => 0) ⟨[], []⟩ [] "hi" none (3/5) 5
        = .ok (r, st', ex') ∧ r.embedding_cache_hit = false) ∧
    (∃ r st' ex', classify_intent (⟨"m", id, fun _ => [1], 0, false, false⟩ : EmbEnv)
        (fun _ _ => 0) ⟨[], []⟩ [] "hi" (some [2]) (3/5) 5
        = .ok (r, st', ex') ∧ r.embedding_cache_hit = true) := by
  constructor
  · refine ⟨⟨"GENERAL_CONVERSATION", 0, "", false, true⟩,
      ⟨[("hi:m", [1])], [⟨1, "hi", [1], "m", 0, none, 0⟩]⟩, [], rfl, ?_⟩
    exact (C3_embedding_cache_hit_flag (⟨"m", id, fun _ => [1], 0, false, false⟩ : EmbEnv)
      (fun _ _ => 0) ⟨[], []⟩ [] "hi" (3/5) 5).1 _ _ _ rfl
  · exact (C3_embedding_cache_hit_flag (⟨"m", id, fun _ => [1], 0, false, false⟩ : EmbEnv)
      (fun _ _ => 0) ⟨[], []⟩ [] "hi" (3/5) 5).2 [2]

/-- Counterexample for C3 as stated: embedding `"hi"` for the first time reports
`embedding_cache_hit = false`, and the immediately following classification of the
same text — now served from the memory tier of the embedding cache — STILL reports
`embedding_cache_hit = false`, not `true`. -/
theorem C3_counterexample_second_call_reports_false :
    classify_intent (⟨"m", id, fun _ => [1], 0, false, false⟩ : EmbEnv) (fun _ _ => 0)
        ⟨[], []⟩ [] "hi" none (3/5) 5
      = .ok (⟨"GENERAL_CONVERSATION", 0, "", false, true⟩,
             ⟨[("hi:m", [1])], [⟨1, "hi", [1], "m", 0, none, 0⟩]⟩, []) ∧
    classify_intent (⟨"m", id, fun _ => [1], 0, false, false⟩ : EmbEnv) (fun _ _ => 0)
        ⟨[("hi:m", [1])], [⟨1, "hi", [1], "m", 0, none, 0⟩]⟩ [] "hi" none (3/5) 5
      = .ok (⟨"GENERAL_CONVERSATION", 0, "", false, true⟩,
             ⟨[("hi:m", [1])], [⟨1, "hi", [1], "m", 0, none, 0⟩]⟩, []) :=
  ⟨rfl, rfl⟩

/-- Claim C9 (amended): against an empty exemplar corpus, any `classify_intent` call
whose query-embedding step completes returns the fallback result — intent
`GENERAL_CONVERSATION`, confidence `0.0`, empty exemplar phrase,
`fallback_used = true` — as an ordinary value, without raising. -/
theorem C9_empty_corpus_fallback (env : EmbEnv) (dist : List ℚ → List ℚ → ℚ)
    (st : EmbState) (q : String) (ue : Option (List ℚ)) (minT : ℚ) (maxR : Nat)
    (ch : Bool) (qe : List ℚ) (st₁ : EmbState)
    (hstep : classify_embed_step env st q ue = .ok (ch, qe, st₁)) :
    classify_intent env dist st [] q ue minT maxR
      = .ok (⟨"GENERAL_CONVERSATION", 0, "", ch, true⟩, st₁, []) := by
  rw [classify_intent_eq env dist st [] q ue minT maxR ch qe st₁ hstep,
    search_similar_intents_nil]

/-- Witness for C9: a concrete previously unseen query against zero exemplars — the
embedding step completes via the provider and the fallback result is returned. -/
theorem C9_witness :
    classify_intent (⟨"m", id, fun _ => [1], 0, false, false⟩ : EmbEnv)
        (fun _ _ => 0) ⟨[], []⟩ [] "hello" none (3/5) 5
      = .ok (⟨"GENERAL_CONVERSATION", 0, "", false, true⟩,
             ⟨[("hello:m", [1])], [⟨1, "hello", [1], "m", 0, none, 0⟩]⟩, []) :=
  C9_empty_corpus_fallback (⟨"m", id, fun _ => [1], 0, false, false⟩ : EmbEnv)
    (fun _ _ => 0) ⟨[], []⟩ "hello" none (3/5) 5 false [1]
    ⟨[("hello:m", [1])], [⟨1, "hello", [1], "m", 0, none, 0⟩]⟩ rfl

/-- Counterexample for C9 as stated: with the exemplar corpus empty, a query whose
text sits in the persistent embedding cache but not in the memory tier raises
(`embedding.py` line 69 reads `cached.embedding_data`, which the `EmbeddingCache`
struct does not define) before the exemplar search ever runs — the call does not
return the fallback result. -/
theorem C9_counterexample_embedding_step_raises :
    classify_intent (⟨"m", id, fun _ => [1], 0, false, false⟩ : EmbEnv)
        (fun _ _ => 0) ⟨[], [⟨1, "t", [1], "m", 0, none, 0⟩]⟩ [] "t" none (3/5) 5
      = .error "AttributeError: embedding_data" :=
  rfl

/-- Claim C1 (confirmed): whenever the candidate search returns a non-empty list, the
head of that list is a best (maximum-similarity) candidate, and `classify_intent`
accepts it exactly when `similarity >= confidence_threshold` of that candidate
(equality included): on accept it increments that exemplar's `usage_count` and returns
the candidate's intent, phrase, and similarity as confidence with
`fallback_used = false`; otherwise it leaves the exemplar table unchanged and returns
`GENERAL_CONVERSATION` with the same similarity and phrase and `fallback_used = true`. -/
theorem C1_best_candidate_threshold (env : EmbEnv) (dist : List ℚ → List ℚ → ℚ)
    (st : EmbState) (exemplars : List IntentExemplarRow) (q : String)
    (ue : Option (List ℚ)) (minT : ℚ) (maxR : Nat) (ch : Bool) (qe : List ℚ)
    (st₁ : EmbState) (best : IntentSearchResult) (rest : List IntentSearchResult)
    (hstep : classify_embed_step env st q ue = .ok (ch, qe, st₁))
    (hcands : search_similar_intents dist exemplars qe minT maxR none = best :: rest) :
    (∀ c ∈ best :: rest, c.similarity ≤ best.similarity) ∧
    classify_intent env dist st exemplars q ue minT maxR =
      if best.confidence_threshold ≤ best.similarity then
        .ok (⟨best.intent, best.similarity, best.phrase, ch, false⟩, st₁,
             increment_usage_by_phrase exemplars best.intent best.phrase)
      else
        .ok (⟨"GENERAL_CONVERSATION", best.similarity, best.phrase, ch, true⟩, st₁,
             exemplars) := by
  constructor
  · have hs := search_similar_intents_sorted dist exemplars qe minT maxR none
    rw [hcands] at hs
    intro c hc
    rcases List.mem_cons.mp hc with h | h
    · exact h ▸ le_refl _
    · exact (List.pairwise_cons.mp hs).1 c h
  · rw [classify_intent_eq env dist st exemplars q ue minT maxR ch qe st₁ hstep, hcands]

/-- Witness for C1: a pre-embedded query, one exemplar whose best-match similarity is
exactly its confidence threshold `0.7` — accepted (`>=`, not `>`), with the exemplar's
usage count incremented from 0 to 1. -/
theorem C1_witness :
    classify_intent (⟨"m", id, fun _ => [1], 0, false, false⟩ : EmbEnv)
        (fun _ _ => 3/10) ⟨[], []⟩
        [⟨1, "PRODUCT_SEARCH", "Show me your espresso options", [1], 7/10, 0⟩]
        "What dark roasts do you have?" (some [2]) (3/5) 5
      = .ok (⟨"PRODUCT_SEARCH", 7/10, "Show me your espresso options", true, false⟩,
             ⟨[], []⟩,
             [⟨1, "PRODUCT_SEARCH", "Show me your espresso options", [1], 7/10, 1⟩]) := by
  have h := (C1_best_candidate_threshold (⟨"m", id, fun _ => [1], 0, false, false⟩ : EmbEnv)
      (fun _ _ => 3/10) ⟨[], []⟩
      [⟨1, "PRODUCT_SEARCH", "Show me your espresso options", [1], 7/10, 0⟩]
      "What dark roasts do you have?" (some [2]) (3/5) 5 true [2] ⟨[], []⟩
      ⟨"PRODUCT_SEARCH", "Show me your espresso options", 7/10, 7/10, 0⟩ []
      rfl (by
        unfold search_similar_intents
        norm_num [List.insertionSort, List.orderedInsert, List.filter])).2
  rw [h, if_pos (le_refl _)]
  rfl

/-- Claim C6 (confirmed): the uncached product similarity search returns only in-stock
products whose recomputed similarity `1 - distance` is at least the threshold (`>=`),
in similarity-descending (distance-ascending) order, and never more than `limit`
results. -/
theorem C6_vector_search_filter_order_limit (dist : List ℚ → List ℚ → ℚ)
    (products : List ProductRow) (qe : List ℚ) (thr : ℚ) (lim : Nat) :
    (vector_similarity_search dist products qe thr lim).length ≤ lim ∧
    (∀ r ∈ vector_similarity_search dist products qe thr lim,
      r.in_stock = true ∧ ∃ s, r.similarity_score = some s ∧ thr ≤ s) ∧
    (vector_similarity_search dist products qe thr lim).Pairwise
      (fun a b => ∀ sa sb, a.similarity_score = some sa →
        b.similarity_score = some sb → sb ≤ sa) := by
  letI rord : ProductRow → ProductRow → Prop := fun a b =>
    product_distance dist qe a ≤ product_distance dist qe b
  haveI : IsTotal ProductRow rord := ⟨fun a b => le_total _ _⟩
  haveI : IsTrans ProductRow rord := ⟨fun _ _ _ h h' => le_trans h h'⟩
  refine ⟨?_, ?_, ?_⟩
  · unfold vector_similarity_search
    rw [List.length_map]
    exact List.length_take_le _ _
  · intro r hr
    unfold vector_similarity_search at hr
    rcases List.mem_map.mp hr with ⟨p, hp, hpr⟩
    have hp2 := (List.take_sublist _ _).subset hp
    have hp3 := (List.perm_insertionSort _ _).subset hp2
    rcases List.mem_filter.mp hp3 with ⟨_, hpred⟩
    cases hpe : p.embedding with
    | none => rw [hpe] at hpred; simp at hpred
    | some e =>
        rw [hpe] at hpred
        rcases Bool.and_eq_true_iff.mp hpred with ⟨hstock, hle⟩
        have hle' : thr ≤ 1 - dist e qe := of_decide_eq_true hle
        subst hpr
        exact ⟨hstock, 1 - dist e qe, by simp [to_search_result, hpe], hle'⟩
  · unfold vector_similarity_search
    refine List.Pairwise.map _ ?_
      (List.Pairwise.sublist (List.take_sublist _ _) (List.sorted_insertionSort _ _))
    intro a b hab sa sb hsa hsb
    cases hae : a.embedding with
    | none => simp [to_search_result, hae] at hsa
    | some ea =>
        cases hbe : b.embedding with
        | none => simp [to_search_result, hbe] at hsb
        | some eb =>
            simp [to_search_result, hae] at hsa
            simp [to_search_result, hbe] at hsb
            have hd : dist ea qe ≤ dist eb qe := by
              simpa only [product_distance, hae, hbe] using hab
            subst hsa
            subst hsb
            linarith

/-- Claim C10 (confirmed): on a vector-search cache hit the returned list is exactly
the products whose ids are in the cached `product_ids` (no in-stock filter and no
similarity threshold is re-applied — any product of the table whose id is cached is
returned), ordered by position in the cached id list, with the similarity score
recomputed from the current query embedding; the hit is recorded on the cache row. -/
theorem C10_cached_hit_no_refiltering (env : ProductEnv) (st : ProductState)
    (qe : List ℚ) (thr : ℚ) (lim : Nat) (c : VectorSearchCacheRow)
    (hhit : get_cached_vector_search env st.cache
      (generate_vector_cache_key env qe thr lim) = some c) :
    vector_similarity_search_with_cache env st qe thr lim
      = ((fetch_products_by_ids env.dist st.products c.product_ids qe, true),
         ⟨st.products, update_cache_hit env st.cache c.id⟩) ∧
    (∀ r, r ∈ fetch_products_by_ids env.dist st.products c.product_ids qe ↔
      ∃ p ∈ st.products, p.id ∈ c.product_ids ∧ r = to_search_result env.dist qe p) ∧
    (fetch_products_by_ids env.dist st.products c.product_ids qe).Pairwise
      (fun a b => c.product_ids.indexOf a.id ≤ c.product_ids.indexOf b.id) := by
  letI rord : ProductRow → ProductRow → Prop := fun a b =>
    c.product_ids.indexOf a.id ≤ c.product_ids.indexOf b.id
  haveI : IsTotal ProductRow rord := ⟨fun a b => le_total _ _⟩
  haveI : IsTrans ProductRow rord := ⟨fun _ _ _ h h' => le_trans h h'⟩
  refine ⟨?_, ?_, ?_⟩
  · unfold vector_similarity_search_with_cache
    dsimp only
    rw [hhit]
  · intro r
    unfold fetch_products_by_ids
    constructor
    · intro hr
      rcases List.mem_map.mp hr with ⟨p, hp, hpr⟩
      have hp2 := (List.perm_insertionSort _ _).subset hp
      rcases List.mem_filter.mp hp2 with ⟨hpmem, hpred⟩
      exact ⟨p, hpmem, of_decide_eq_true hpred, hpr.symm⟩
    · rintro ⟨p, hpmem, hpid, rfl⟩
      apply List.mem_map_of_mem
      rw [(List.perm_insertionSort _ _).mem_iff]
      exact List.mem_filter.mpr ⟨hpmem, decide_eq_true hpid⟩
  · unfold fetch_products_by_ids
    refine List.Pairwise.map _ ?_ (List.sorted_insertionSort _ _)
    intro a b hab
    simpa [to_search_result] using hab

/-- Witness for C10: an unexpired cache row holds id 7; product 7 is now out of stock
and its recomputed similarity `1 - 2 = -1` is far below the `0.7` threshold, yet the
cache-hit path returns it, with the score recomputed from the current embedding and
the row's hit statistics updated. -/
theorem C10_witness :
    vector_similarity_search_with_cache
        (⟨fun e _ => e.headD 0, fun _ _ _ => "k", 0⟩ : ProductEnv)
        ⟨[⟨7, "stale", 2, "c", "s7", false, some [2]⟩],
         [⟨1, "k", 7/10, 5, [7], 1, 30, none, 1⟩]⟩ [9] (7/10) 5
      = (([⟨7, "stale", 2, "c", "s7", false, some (-1)⟩], true),
         ⟨[⟨7, "stale", 2, "c", "s7", false, some [2]⟩],
          [⟨1, "k", 7/10, 5, [7], 1, 30, some 0, 2⟩]⟩) := by
  have h := (C10_cached_hit_no_refiltering
      (⟨fun e _ => e.headD 0, fun _ _ _ => "k", 0⟩ : ProductEnv)
      ⟨[⟨7, "stale", 2, "c", "s7", false, some [2]⟩],
       [⟨1, "k", 7/10, 5, [7], 1, 30, none, 1⟩]⟩ [9] (7/10) 5
      ⟨1, "k", 7/10, 5, [7], 1, 30, none, 1⟩ rfl).1
  rw [h]
  norm_num [fetch_products_by_ids, to_search_result, update_cache_hit,
    List.insertionSort, List.orderedInsert, List.filter]

/-- Claim C8 (amended): on a vector-search cache miss the real search runs and the
call returns its results with `cache_hit = false`; the results are written through to
the cache with `expires_at` one minute ahead — but only when the result list is
non-empty (`if results:` guards the write; an empty result is not cached). -/
theorem C8_miss_runs_search_and_caches (env : ProductEnv) (st : ProductState)
    (qe : List ℚ) (thr : ℚ) (lim : Nat)
    (hmiss : get_cached_vector_search env st.cache
      (generate_vector_cache_key env qe thr lim) = none) :
    vector_similarity_search_with_cache env st qe thr lim
      = ((vector_similarity_search env.dist st.products qe thr lim, false),
         ⟨st.products,
          if (vector_similarity_search env.dist st.products qe thr lim).isEmpty then
            st.cache
          else
            cache_vector_search_results env st.cache
              (generate_vector_cache_key env qe thr lim)
              (vector_similarity_search env.dist st.products qe thr lim) thr lim⟩) ∧
    (vector_similarity_search env.dist st.products qe thr lim ≠ [] →
      ∃ row ∈ cache_vector_search_results env st.cache
          (generate_vector_cache_key env qe thr lim)
          (vector_similarity_search env.dist st.products qe thr lim) thr lim,
        row.embedding_hash = generate_vector_cache_key env qe thr lim ∧
        row.product_ids = (vector_similarity_search env.dist st.products qe thr lim).map
          (fun r => r.id) ∧
        row.expires_at = env.now + 60) := by
  constructor
  · unfold vector_similarity_search_with_cache
    dsimp only
    rw [hmiss]
  · intro _
    unfold cache_vector_search_results
    dsimp only
    cases hany : (st.cache.any (fun r => r.embedding_hash ==
        generate_vector_cache_key env qe thr lim &&
        r.similarity_threshold == thr && r.result_limit == lim)) with
    | false =>
        rw [if_neg (by simp [hany])]
        refine ⟨_, List.mem_append_right _ (List.mem_singleton_self _), rfl, rfl, rfl⟩
    | true =>
        rw [if_pos (by simp [hany])]
        rcases List.any_eq_true.mp hany with ⟨r, hrmem, hrpred⟩
        refine ⟨_, List.mem_map_of_mem _ hrmem, ?_⟩
        rw [if_pos hrpred]
        have hkey : r.embedding_hash = generate_vector_cache_key env qe thr lim := by
          have := (Bool.and_eq_true_iff.mp (Bool.and_eq_true_iff.mp hrpred).1).1
          exact eq_of_beq this
        exact ⟨hkey, rfl, rfl⟩

/-- Witness for C8: a concrete miss with one matching in-stock product; the search
result comes back with `cache_hit = false` and a fresh cache row with the result id
list and `expires_at = now + 60` is inserted. -/
theorem C8_witness :
    vector_similarity_search_with_cache
        (⟨fun e _ => e.headD 0, fun _ _ _ => "k", 0⟩ : ProductEnv)
        ⟨[⟨2, "b", 4, "c", "s2", true, some [1/10]⟩], []⟩ [9] (7/10) 5
      = (([⟨2, "b", 4, "c", "s2", true, some (9/10)⟩], false),
         ⟨[⟨2, "b", 4, "c", "s2", true, some [1/10]⟩],
          [⟨1, "k", 7/10, 5, [2], 1, 60, none, 1⟩]⟩) := by
  have h := (C8_miss_runs_search_and_caches
      (⟨fun e _ => e.headD 0, fun _ _ _ => "k", 0⟩ : ProductEnv)
      ⟨[⟨2, "b", 4, "c", "s2", true, some [1/10]⟩], []⟩ [9] (7/10) 5 rfl).1
  rw [h]
  have hs : vector_similarity_search
      (⟨fun e _ => e.headD 0, fun _ _ _ => "k", 0⟩ : ProductEnv).dist
      [⟨2, "b", 4, "c", "s2", true, some [1/10]⟩] [9] (7/10) 5
      = [⟨2, "b", 4, "c", "s2", true, some (9/10)⟩] := by
    unfold vector_similarity_search
    norm_num [List.insertionSort, List.orderedInsert, List.filter, to_search_result,
      product_distance]
  rw [hs]
  norm_num [cache_vector_search_results, generate_vector_cache_key]

/-- Counterexample for C8 as stated: a miss whose real search returns no results is
not written through — the call returns `([], false)` and the cache stays empty, so no
entry with a one-minute expiry exists. -/
theorem C8_counterexample_empty_result_not_cached :
    vector_similarity_search_with_cache
        (⟨fun _ _ => 0, fun _ _ _ => "k", 0⟩ : ProductEnv) ⟨[], []⟩ [9] (7/10) 5
      = (([], false), ⟨[], []⟩) := by
  rfl

/-- Claim C5 (code bug): `get_batch_embeddings` evaluated through the failing
scenario and a working contrast case.  A batch whose texts are memory-cached
(`"a"`, vector `[5]`) or wholly uncached (`"c"`, generated as `[1]`) returns one
vector per input text in input order, generating only the uncached text; but a batch
containing a memory-cold persistently-cached text (`"b"`) raises instead of serving
it from the cache: the cache-check loop reads `cached.embedding_data`, an attribute
the `EmbeddingCache` struct does not define (its field is `embedding`). -/
theorem C5_batch_persistent_hit_raises :
    get_batch_embeddings (⟨"m", id, fun _ => [1], 0, false, false⟩ : EmbEnv)
        ⟨[("a:m", [5])], []⟩ ["a", "c"] true
      = .ok ([[5], [1]],
             ⟨[("c:m", [1]), ("a:m", [5])], [⟨1, "c", [1], "m", 0, none, 0⟩]⟩) ∧
    get_batch_embeddings (⟨"m", id, fun _ => [1], 0, false, false⟩ : EmbEnv)
        ⟨[], [⟨1, "b", [7], "m", 0, none, 0⟩]⟩ ["a", "b", "c"] true
      = .error "AttributeError: embedding_data" :=
  ⟨rfl, rfl⟩

end App
